import Mathlib

/-
  Formal model of the opencollective-api backend business rules.

  Each definition is a shallow embedding of a function of the repository
  (expense mutations and permission evaluators from the expenses server
  module, the virtual-card GraphQL mutations, the expense status constants,
  and the contribution ledger generation pinned down by the Transaction
  model tests).  Monetary amounts are integers (cents, ℤ), FX rates are
  rationals (ℚ), and JavaScript Math.round coincides with Mathlib round
  (both are floor of x + 1/2).  Fallible handlers return Except ApiError.
-/

namespace OC

/-- Expense statuses, from src/server/constants/expense_status.js. -/
inductive ExpenseStatus
  | DRAFT
  | UNVERIFIED
  | PENDING
  | APPROVED
  | REJECTED
  | PROCESSING
  | ERROR
  | PAID
  | SCHEDULED_FOR_PAYMENT
  | SPAM
  | CANCELED
  deriving DecidableEq, Repr

/-- The GraphQL error objects thrown by the handlers (src/server/graphql/errors).
Only the constructors the verified code paths use are modelled; the message is
kept whenever a claim depends on it. -/
inductive ApiError
  | unauthorized (msg : Option String)
  | forbidden
  | validationFailed (msg : String)
  | badRequest (msg : String)
  | notFound (msg : String)
  | featureNotAllowedForUser
  | featureNotSupportedForCollective (msg : String)
  | internalError (msg : String)
  deriving DecidableEq, Repr

/- ----------------------------------------------------------------- -/
/- C9: FX rate matching (src/unnamed/part_004, matchFxRateWithCurrency
   and getWiseFxRateInfoFromExpenseData)                              -/
/- ----------------------------------------------------------------- -/

/-- From src/unnamed/part_004 (matchFxRateWithCurrency): returns the rate when it is
expressed for the expected currency pair, its inverse when it is expressed for the
opposite pair, and nothing otherwise.  A JavaScript falsy rate (absent or zero) is
treated as missing by the `if (!rate)` guard. -/
def matchFxRateWithCurrency (expectedSourceCurrency expectedTargetCurrency rateSourceCurrency rateTargetCurrency : String) (rate : Option ℚ) : Option ℚ :=
  if rate.getD 0 = 0 then none
  else if expectedSourceCurrency = rateSourceCurrency ∧ expectedTargetCurrency = rateTargetCurrency then rate
  else if expectedSourceCurrency = rateTargetCurrency ∧ expectedTargetCurrency = rateSourceCurrency then
    rate.map (fun r => 1 / r)
  else none

/-- Wise transfer/quote payload stored on expense.data (fields used by
getWiseFxRateInfoFromExpenseData).  Absent JavaScript fields are `none`. -/
structure WiseInfo where
  rate : Option ℚ
  sourceCurrency : Option String
  targetCurrency : Option String
  source : Option String
  target : Option String
  created : Option Nat
  createdTime : Option Nat
  deriving DecidableEq, Repr

/-- The `expense.data` slice read by getWiseFxRateInfoFromExpenseData. -/
structure WiseExpenseData where
  transfer : Option WiseInfo
  quote : Option WiseInfo
  deriving DecidableEq, Repr

/-- Result object of getWiseFxRateInfoFromExpenseData; keys absent on the
JavaScript object are `none`. -/
structure FxRateInfo where
  value : ℚ
  date : Option Nat
  isFinal : Option Bool
  deriving DecidableEq, Repr

/-- From src/unnamed/part_004 (getWiseFxRateInfoFromExpenseData).  When the expected
source and target currencies coincide the function returns the bare object with
value 1; otherwise it reads the Wise transfer (or quote) and matches its rate
against the expected pair.  A missing wise currency is modelled as the empty
string, which is never a currency code, mirroring that `undefined` compares
unequal to every actual currency in JavaScript. -/
def getWiseFxRateInfoFromExpenseData (expenseData : Option WiseExpenseData) (expectedSourceCurrency expectedTargetCurrency : String) : Option FxRateInfo :=
  if expectedSourceCurrency = expectedTargetCurrency then
    some { value := 1, date := none, isFinal := none }
  else
    match (expenseData.bind (fun d => d.transfer)).orElse (fun _ => expenseData.bind (fun d => d.quote)) with
    | none => none
    | some info =>
      if info.rate.getD 0 = 0 then none
      else
        let wiseSourceCurrency := ((info.sourceCurrency).orElse (fun _ => info.source)).getD ""
        let wiseTargetCurrency := ((info.targetCurrency).orElse (fun _ => info.target)).getD ""
        match matchFxRateWithCurrency expectedSourceCurrency expectedTargetCurrency wiseSourceCurrency wiseTargetCurrency info.rate with
        | none => none
        | some fxRate =>
          some { value := fxRate,
                 date := (info.created).orElse (fun _ => info.createdTime),
                 isFinal := some (expenseData.bind (fun d => d.transfer) ≠ none) }

/- ----------------------------------------------------------------- -/
/- C8: virtual card monthly limit                                     -/
/-     (src/server/graphql/v2/mutation/VirtualCardMutations.ts)       -/
/- ----------------------------------------------------------------- -/

/-- From VirtualCardMutations.ts: the hard cap of 2000 (in host currency units)
on a monthly spending limit. -/
def MAXIMUM_MONTHLY_LIMIT : ℤ := 2000

/-- Request context for the createVirtualCard mutation: the remote user, the
monthly limit in cents, and the outcome of the later permission / assignee
lookups. -/
structure CreateVirtualCardArgs where
  hasRemoteUser : Bool
  monthlyLimitValueInCents : ℤ
  isHostAdmin : Bool
  assigneeHasUser : Bool
  deriving DecidableEq, Repr

/-- From VirtualCardMutations.ts (createVirtualCard resolver): the sequence of
guards before stripe.createVirtualCard is called.  The second component counts
the cards created through the Stripe provider, so an error result is always
paired with zero created cards. -/
def createVirtualCard (a : CreateVirtualCardArgs) : Except ApiError Unit × Nat :=
  if a.hasRemoteUser = false then
    (.error (.unauthorized (some "You need to be logged in to create a virtual card")), 0)
  else if a.monthlyLimitValueInCents > MAXIMUM_MONTHLY_LIMIT * 100 then
    (.error (.badRequest "Monthly limit should not exceed 2000"), 0)
  else if a.isHostAdmin = false then
    (.error (.unauthorized (some "You do not have permission to edit this collective")), 0)
  else if a.assigneeHasUser = false then
    (.error (.badRequest "Could not find the assigned user"), 0)
  else
    (.ok (), 1)

/-- Request context for the editVirtualCard mutation. -/
structure EditVirtualCardArgs where
  hasRemoteUser : Bool
  cardExists : Bool
  isHostAdmin : Bool
  assigneeGiven : Bool
  assigneeHasUser : Bool
  nameGiven : Option String
  monthlyLimitValueInCents : Option ℤ
  spendingLimitInterval : String
  provider : String
  deriving DecidableEq, Repr

/-- From VirtualCardMutations.ts (editVirtualCard resolver).  The returned value
is the `spendingLimitAmount` update applied to the card row (`none` when the
monthly-limit branch is not taken). -/
def editVirtualCard (a : EditVirtualCardArgs) : Except ApiError (Option ℤ) :=
  if a.hasRemoteUser = false then
    .error (.unauthorized (some "You need to be logged in to assign a virtual card"))
  else if a.cardExists = false then
    .error (.notFound "Could not find Virtual Card")
  else if a.isHostAdmin = false then
    .error (.unauthorized (some "You do not have permission to update this Virtual Card"))
  else if a.assigneeGiven = true ∧ a.assigneeHasUser = false then
    .error (.badRequest "Could not find the assigned user")
  else
    match a.monthlyLimitValueInCents with
    | some limit =>
      if a.spendingLimitInterval = "MONTHLY" ∧ a.provider = "STRIPE" then
        if limit > MAXIMUM_MONTHLY_LIMIT * 100 then
          .error (.badRequest "Monthly limit should not exceed 2000")
        else
          .ok (some limit)
      else
        .ok none
    | none => .ok none

/- ----------------------------------------------------------------- -/
/- C10: account holder / legal name matching                          -/
/-     (src/unnamed/part_004, isAccountHolderNameAndLegalNameMatch)   -/
/- ----------------------------------------------------------------- -/

/-- The literal pattern removed from both names before comparison. -/
def pat501 : List Char := "501(c)(3)".data

/-- True when `p` occurs at the head of `l`. -/
def startsWithPat : List Char → List Char → Bool
  | [], _ => true
  | _ :: _, [] => false
  | p :: ps, c :: cs => p = c && startsWithPat ps cs

/-- Worker for remove501; the fuel is an upper bound on the number of characters
still to be consumed, so structural recursion on it suffices. -/
def remove501Fuel : Nat → List Char → List Char
  | 0, l => l
  | _ + 1, [] => []
  | fuel + 1, c :: rest =>
    if startsWithPat pat501 (c :: rest) then remove501Fuel fuel ((c :: rest).drop pat501.length)
    else c :: remove501Fuel fuel rest

/-- Left-to-right removal of every non-overlapping occurrence of pat501,
modelling the global regex replace in isAccountHolderNameAndLegalNameMatch.
Every recursive step of the worker consumes at least one character, so the
length of the input is enough fuel. -/
def remove501 (l : List Char) : List Char := remove501Fuel l.length l

/-- String wrapper of remove501. -/
def strip501 (s : String) : String := ⟨remove501 s.data⟩

/-- ASCII lowercasing of one character. -/
def lowerAsciiChar (c : Char) : Char :=
  if 'A' ≤ c ∧ c ≤ 'Z' then Char.ofNat (c.toNat + 32) else c

/-- Folding of the common accented Latin letters to their ASCII base letter,
modelling primary-strength (base) collation for the letters the repository
cares about. -/
def foldAccentChar (c : Char) : Char :=
  if c ∈ ['à', 'á', 'â', 'ã', 'ä', 'å', 'À', 'Á', 'Â', 'Ã', 'Ä', 'Å'] then 'a'
  else if c ∈ ['è', 'é', 'ê', 'ë', 'È', 'É', 'Ê', 'Ë'] then 'e'
  else if c ∈ ['ì', 'í', 'î', 'ï', 'Ì', 'Í', 'Î', 'Ï'] then 'i'
  else if c ∈ ['ò', 'ó', 'ô', 'õ', 'ö', 'Ò', 'Ó', 'Ô', 'Õ', 'Ö'] then 'o'
  else if c ∈ ['ù', 'ú', 'û', 'ü', 'Ù', 'Ú', 'Û', 'Ü'] then 'u'
  else if c ∈ ['ç', 'Ç'] then 'c'
  else if c ∈ ['ñ', 'Ñ'] then 'n'
  else c

/-- Models ECMA-402 localeCompare with sensitivity base and ignorePunctuation
returning 0: the two names are equivalent when they agree after folding accents,
lowercasing ASCII letters, and dropping every character that is not an ASCII
letter or digit (punctuation and white space are ignorable at primary strength
under the shifted alternate handling that ignorePunctuation selects). -/
def normNameChars (l : List Char) : List Char :=
  (l.map (fun c => lowerAsciiChar (foldAccentChar c))).filter (fun c => c.isAlpha || c.isDigit)

/-- Name normalisation on strings. -/
def normName (s : String) : List Char := normNameChars s.data

/-- Base-sensitivity, punctuation-ignoring equivalence of two names. -/
def baseNamesEqual (a b : String) : Bool := normName a == normName b

/-- JavaScript `legalName.trim()`: drop white space from both ends. -/
def trimChars (l : List Char) : List Char :=
  ((l.dropWhile Char.isWhitespace).reverse.dropWhile Char.isWhitespace).reverse

/-- JavaScript `split(' ')`: split on every single space character. -/
def splitOnSpace (l : List Char) : List (List Char) :=
  l.foldr
    (fun c acc =>
      if c = ' ' then [] :: acc
      else
        match acc with
        | [] => [[c]]
        | w :: ws => (c :: w) :: ws)
    [[]]

/-- From src/unnamed/part_004 (isAccountHolderNameAndLegalNameMatch).  Both names
are stripped of the 501(c)(3) pattern; the legal name is trimmed and split on
spaces, and when it has exactly two words a reversed variant is also compared.
When it does not, `legalNameReversed` stays undefined in the JavaScript source
and String.prototype.localeCompare coerces it to the string "undefined"; the
model keeps that coercion. -/
def isAccountHolderNameAndLegalNameMatch (accountHolderName legalName : String) : Bool :=
  let legalName' := strip501 legalName
  let accountHolderName' := strip501 accountHolderName
  let namesArray := splitOnSpace (trimChars legalName'.data)
  let legalNameReversed : Option (List Char) :=
    if namesArray.length = 2 then
      some (namesArray.getD 1 [] ++ [' '] ++ namesArray.getD 0 [])
    else none
  baseNamesEqual accountHolderName' legalName' ||
    normName accountHolderName' == normNameChars (legalNameReversed.getD "undefined".data)

/- ----------------------------------------------------------------- -/
/- C3 / C5: expense permission evaluators and status actions          -/
/-     (src/unnamed/part_004)                                         -/
/- ----------------------------------------------------------------- -/

/-- The request-dependent facts the expense permission evaluators consult:
whether a user is logged in, the USE_EXPENSES feature gate, the boolean
outcome of the role conditions (isOwner / isCollectiveAdmin / isHostAdmin),
the EXPENSE_AUTHOR_CANNOT_APPROVE policy of the collective, and whether the
remote user authored the expense. -/
structure ExpenseReq where
  hasRemoteUser : Bool
  remoteUserId : ℤ
  canUseExpensesFeature : Bool
  isOwner : Bool
  isCollectiveAdmin : Bool
  isHostAdmin : Bool
  authorCannotApprovePolicy : Bool
  isAuthor : Bool
  deriving DecidableEq, Repr

/-- The expense row fields the status actions read and write. -/
structure ExpenseRow where
  status : ExpenseStatus
  lastEditedById : ℤ
  deriving DecidableEq, Repr

/-- From src/unnamed/part_004 (remoteUserMeetsOneCondition, non-throwing form):
false without a logged-in user, otherwise true when one condition holds. -/
def remoteUserMeetsOneCondition (req : ExpenseReq) (conditions : List Bool) : Bool :=
  req.hasRemoteUser && conditions.any id

/-- From src/unnamed/part_004 (canApprove, non-throwing form). -/
def canApprove (req : ExpenseReq) (e : ExpenseRow) : Bool :=
  if ¬(e.status = .PENDING ∨ e.status = .REJECTED) then false
  else if req.canUseExpensesFeature = false then false
  else if req.authorCannotApprovePolicy = true ∧ req.isAuthor = true then false
  else remoteUserMeetsOneCondition req [req.isCollectiveAdmin, req.isHostAdmin]

/-- From src/unnamed/part_004 (canUnapprove, non-throwing form). -/
def canUnapprove (req : ExpenseReq) (e : ExpenseRow) : Bool :=
  if ¬(e.status = .APPROVED ∨ e.status = .ERROR) then false
  else if req.canUseExpensesFeature = false then false
  else remoteUserMeetsOneCondition req [req.isCollectiveAdmin, req.isHostAdmin]

/-- From src/unnamed/part_004 (canReject, non-throwing form). -/
def canReject (req : ExpenseReq) (e : ExpenseRow) : Bool :=
  if ¬(e.status = .PENDING ∨ e.status = .UNVERIFIED) then false
  else if req.canUseExpensesFeature = false then false
  else remoteUserMeetsOneCondition req [req.isCollectiveAdmin, req.isHostAdmin]

/-- From src/unnamed/part_004 (canMarkAsSpam, non-throwing form). -/
def canMarkAsSpam (req : ExpenseReq) (e : ExpenseRow) : Bool :=
  if ¬(e.status = .REJECTED) then false
  else if req.canUseExpensesFeature = false then false
  else remoteUserMeetsOneCondition req [req.isCollectiveAdmin, req.isHostAdmin]

/-- From src/unnamed/part_004 (canPayExpense, non-throwing form): only host
admins may pay, and only expenses in status APPROVED or ERROR. -/
def canPayExpense (req : ExpenseReq) (status : ExpenseStatus) : Bool :=
  if ¬(status = .APPROVED ∨ status = .ERROR) then false
  else if req.canUseExpensesFeature = false then false
  else remoteUserMeetsOneCondition req [req.isHostAdmin]

deriving instance DecidableEq for Except

/-- Outcome of one of the expense status actions: the thrown error or the
returned expense, the database row after the call, and the activity types
created, in order. -/
structure ActionOutcome where
  result : Except ApiError ExpenseRow
  finalRow : ExpenseRow
  activitiesCreated : List String
  deriving DecidableEq, Repr

/-- From src/unnamed/part_004 (approveExpense): an already APPROVED expense is
returned as-is, a denied permission throws Forbidden before any write, and
otherwise the row is updated and the approval activity is created. -/
def approveExpense (req : ExpenseReq) (e : ExpenseRow) : ActionOutcome :=
  if e.status = .APPROVED then { result := .ok e, finalRow := e, activitiesCreated := [] }
  else if canApprove req e = false then { result := .error .forbidden, finalRow := e, activitiesCreated := [] }
  else
    let updated : ExpenseRow := { status := .APPROVED, lastEditedById := req.remoteUserId }
    { result := .ok updated, finalRow := updated, activitiesCreated := ["collective.expense.approved"] }

/-- From src/unnamed/part_004 (unapproveExpense): target status PENDING. -/
def unapproveExpense (req : ExpenseReq) (e : ExpenseRow) : ActionOutcome :=
  if e.status = .PENDING then { result := .ok e, finalRow := e, activitiesCreated := [] }
  else if canUnapprove req e = false then { result := .error .forbidden, finalRow := e, activitiesCreated := [] }
  else
    let updated : ExpenseRow := { status := .PENDING, lastEditedById := req.remoteUserId }
    { result := .ok updated, finalRow := updated, activitiesCreated := ["collective.expense.unapproved"] }

/-- From src/unnamed/part_004 (rejectExpense): target status REJECTED. -/
def rejectExpense (req : ExpenseReq) (e : ExpenseRow) : ActionOutcome :=
  if e.status = .REJECTED then { result := .ok e, finalRow := e, activitiesCreated := [] }
  else if canReject req e = false then { result := .error .forbidden, finalRow := e, activitiesCreated := [] }
  else
    let updated : ExpenseRow := { status := .REJECTED, lastEditedById := req.remoteUserId }
    { result := .ok updated, finalRow := updated, activitiesCreated := ["collective.expense.rejected"] }

/-- From src/unnamed/part_004 (markExpenseAsSpam): target status SPAM; on the
write path the submitter is limited and the spam activity created. -/
def markExpenseAsSpam (req : ExpenseReq) (e : ExpenseRow) : ActionOutcome :=
  if e.status = .SPAM then { result := .ok e, finalRow := e, activitiesCreated := [] }
  else if canMarkAsSpam req e = false then { result := .error .forbidden, finalRow := e, activitiesCreated := [] }
  else
    let updated : ExpenseRow := { status := .SPAM, lastEditedById := req.remoteUserId }
    { result := .ok updated, finalRow := updated, activitiesCreated := ["collective.expense.spam"] }

/-- How the provider-facing tail of payExpense turns out once every guard has
passed: the expense is paid, the TransferWise path early-returns with the
expense in PROCESSING, or the provider call fails. -/
inductive PaymentOutcome
  | succeeds
  | wiseProcessing
  | fails (e : ApiError)
  deriving DecidableEq, Repr

/-- The request context of payExpense: guards in source order, then the
abstract provider outcome. -/
structure PayExpenseCtx where
  req : ExpenseReq
  expenseExists : Bool
  isLocked : Bool
  status : ExpenseStatus
  sameCurrency : Bool
  multiCurrencyEnabled : Bool
  legacyPayoutMethodDonation : Bool
  paymentOutcome : PaymentOutcome
  deriving DecidableEq, Repr

/-- From src/unnamed/part_004 (payExpense): the guard chain in source order —
authentication, feature gate, the soft lock, the PAID / PROCESSING /
non-APPROVED-non-ERROR status rejections, the canPayExpense permission, the
multi-currency gate and the legacy donation gate — followed by the provider
call, which marks the expense PAID or leaves it PROCESSING (TransferWise
early return).  The result is the final status of the expense. -/
def payExpense (ctx : PayExpenseCtx) : Except ApiError ExpenseStatus :=
  if ctx.req.hasRemoteUser = false then
    .error (.unauthorized (some "You need to be logged in to pay an expense"))
  else if ctx.req.canUseExpensesFeature = false then
    .error .featureNotAllowedForUser
  else if ctx.expenseExists = false then
    .error (.unauthorized (some "Expense not found"))
  else if ctx.isLocked = true then
    .error (.internalError "This expense is already been processed, please try again later")
  else if ctx.status = .PAID then
    .error (.unauthorized (some "Expense has already been paid"))
  else if ctx.status = .PROCESSING then
    .error (.unauthorized (some "Expense is currently being processed, this means someone already started the payment process"))
  else if ctx.status ≠ .APPROVED ∧ ¬(ctx.status = .ERROR) then
    .error (.unauthorized (some "Expense needs to be approved"))
  else if canPayExpense ctx.req ctx.status = false then
    .error (.unauthorized (some "You do not have permission to pay this expense"))
  else if ctx.sameCurrency = false ∧ ctx.multiCurrencyEnabled = false then
    .error (.unauthorized (some "Multi-currency expenses are not enabled for this collective"))
  else if ctx.legacyPayoutMethodDonation = true then
    .error (.internalError "In kind donations are not supported anymore")
  else
    match ctx.paymentOutcome with
    | .fails e => .error e
    | .wiseProcessing => .ok .PROCESSING
    | .succeeds => .ok .PAID

/- ----------------------------------------------------------------- -/
/- C4: expense fee estimation (src/unnamed/part_004, getExpenseFees)  -/
/- ----------------------------------------------------------------- -/

/-- Payout method types, from the PayoutMethod model constants. -/
inductive PayoutMethodType
  | BANK_ACCOUNT
  | PAYPAL
  | ACCOUNT_BALANCE
  | CREDIT_CARD
  | OTHER
  deriving DecidableEq, Repr

/-- Optional manual fees in collective currency (src/unnamed/part_004, FeesArgs). -/
structure FeesArgs where
  paymentProcessorFeeInCollectiveCurrency : Option ℤ
  hostFeeInCollectiveCurrency : Option ℤ
  platformFeeInCollectiveCurrency : Option ℤ
  deriving DecidableEq, Repr

/-- The `feesInHostCurrency` record built by getExpenseFees. -/
structure FeesInHostCurrency where
  paymentProcessorFeeInHostCurrency : ℤ
  hostFeeInHostCurrency : ℤ
  platformFeeInHostCurrency : ℤ
  deriving DecidableEq, Repr

/-- The `feesInExpenseCurrency` record built by getExpenseFees; fields that are
undefined on the JavaScript object are `none`. -/
structure FeesInExpenseCurrency where
  paymentProcessorFee : Option ℤ
  hostFee : Option ℤ
  platformFee : Option ℤ
  deriving DecidableEq, Repr

/-- The triple returned by getExpenseFees. -/
structure ExpenseFeesResult where
  feesInCollectiveCurrency : FeesArgs
  feesInHostCurrency : FeesInHostCurrency
  feesInExpenseCurrency : FeesInExpenseCurrency
  deriving DecidableEq, Repr

/-- From src/lib/math (floatAmountToCents, as used by getExpenseFees): a float
amount in currency units becomes rounded cents. -/
def floatAmountToCents (floatAmount : ℚ) : ℤ := round (floatAmount * 100)

/-- The inputs getExpenseFees reads: the manual fees, the two FX rates it looks
up, the payout method branch selectors, and the provider-quoted fee data for
the TransferWise and PayPal branches. -/
structure GetExpenseFeesInput where
  fees : FeesArgs
  collectiveToHostFxRate : ℚ
  collectiveToExpenseFxRate : ℚ
  payoutMethodType : PayoutMethodType
  forceManual : Bool
  expenseCurrencyEqualsCollectiveCurrency : Bool
  hostConnectedToWise : Bool
  wisePaymentOptionAvailable : Bool
  wisePaymentOptionFeeTotal : ℚ
  paypalAdaptiveFee : ℤ
  deriving DecidableEq, Repr

/-- From src/unnamed/part_004 (getExpenseFees, payout-method branch): the
payment processor fee in collective currency is quoted by TransferWise for
bank-account payouts (converted back through the collective-to-host rate) and
by the PayPal adaptive API for PayPal payouts, unless forceManual is set;
otherwise the manually provided fee is kept. -/
def resolvePaymentProcessorFee (i : GetExpenseFeesInput) : Except ApiError (Option ℤ) :=
  if i.payoutMethodType = .BANK_ACCOUNT ∧ i.forceManual = false then
    if i.hostConnectedToWise = false then
      .error (.internalError "Host is not connected to Transferwise")
    else if i.wisePaymentOptionAvailable = false then
      .error (.badRequest "Could not find available payment option for this transaction.")
    else
      .ok (some (floatAmountToCents (i.wisePaymentOptionFeeTotal / i.collectiveToHostFxRate)))
  else if i.payoutMethodType = .PAYPAL ∧ i.forceManual = false then
    .ok (some i.paypalAdaptiveFee)
  else
    .ok i.fees.paymentProcessorFeeInCollectiveCurrency

/-- From src/unnamed/part_004 (getExpenseFees, building part): converts each
fee to host currency by rounding the collective-to-host FX product (missing
fees count as 0), defaults a falsy payment processor fee to zero, and builds
the fees in expense currency — verbatim copies of the collective-currency fees
when the expense and collective currencies coincide, rounded conversions
otherwise. -/
def buildExpenseFees (i : GetExpenseFeesInput) (resultPpf : Option ℤ) : ExpenseFeesResult :=
  let feesInHost : FeesInHostCurrency :=
    { paymentProcessorFeeInHostCurrency := round (i.collectiveToHostFxRate * ((resultPpf.getD 0 : ℤ) : ℚ)),
      hostFeeInHostCurrency := round (i.collectiveToHostFxRate * ((i.fees.hostFeeInCollectiveCurrency.getD 0 : ℤ) : ℚ)),
      platformFeeInHostCurrency := round (i.collectiveToHostFxRate * ((i.fees.platformFeeInCollectiveCurrency.getD 0 : ℤ) : ℚ)) }
  let resultFees : FeesArgs :=
    { paymentProcessorFeeInCollectiveCurrency := some (resultPpf.getD 0),
      hostFeeInCollectiveCurrency := i.fees.hostFeeInCollectiveCurrency,
      platformFeeInCollectiveCurrency := i.fees.platformFeeInCollectiveCurrency }
  let feesInExpense : FeesInExpenseCurrency :=
    if i.expenseCurrencyEqualsCollectiveCurrency = true then
      { paymentProcessorFee := resultFees.paymentProcessorFeeInCollectiveCurrency,
        hostFee := resultFees.hostFeeInCollectiveCurrency,
        platformFee := resultFees.platformFeeInCollectiveCurrency }
    else
      { paymentProcessorFee := some (round (((resultFees.paymentProcessorFeeInCollectiveCurrency.getD 0 : ℤ) : ℚ) * i.collectiveToExpenseFxRate)),
        hostFee := some (round (((resultFees.hostFeeInCollectiveCurrency.getD 0 : ℤ) : ℚ) * i.collectiveToExpenseFxRate)),
        platformFee := some (round (((resultFees.platformFeeInCollectiveCurrency.getD 0 : ℤ) : ℚ) * i.collectiveToExpenseFxRate)) }
  { feesInCollectiveCurrency := resultFees,
    feesInHostCurrency := feesInHost,
    feesInExpenseCurrency := feesInExpense }

/-- From src/unnamed/part_004 (getExpenseFees): the payout-method branch
followed by the fee record building. -/
def getExpenseFees (i : GetExpenseFeesInput) : Except ApiError ExpenseFeesResult := do
  let resultPpf ← resolvePaymentProcessorFee i
  pure (buildExpenseFees i resultPpf)

/-- A concrete getExpenseFees input: manual payout, host FX rate 11/10, the
platform fee missing. -/
def sampleFeesInput : GetExpenseFeesInput :=
  { fees := { paymentProcessorFeeInCollectiveCurrency := some 300,
              hostFeeInCollectiveCurrency := some 500,
              platformFeeInCollectiveCurrency := none },
    collectiveToHostFxRate := 11 / 10, collectiveToExpenseFxRate := 1,
    payoutMethodType := .OTHER, forceManual := false,
    expenseCurrencyEqualsCollectiveCurrency := true,
    hostConnectedToWise := false, wisePaymentOptionAvailable := false,
    wisePaymentOptionFeeTotal := 0, paypalAdaptiveFee := 0 }

/- ----------------------------------------------------------------- -/
/- C6 / C7: createExpense (src/unnamed/part_004)                      -/
/- ----------------------------------------------------------------- -/

/-- One entry of expenseData.items: the amount in cents and the optional
receipt URL. -/
structure ExpenseItemData where
  amount : ℤ
  url : Option String
  deriving DecidableEq, Repr

/-- A tax definition attached to the expense (src/unnamed/part_004,
TaxDefinition). -/
structure TaxDef where
  taxType : String
  rate : ℚ
  deriving DecidableEq, Repr

/-- From src/unnamed/part_004 (computeTotalAmountForExpense): the rounded sum
over all items of the item amount plus the per-item taxes. -/
def computeTotalAmountForExpense (items : List ExpenseItemData) (taxes : List TaxDef) : ℤ :=
  round ((items.map (fun item =>
    ((item.amount : ℚ) + ((taxes.map (fun tax => (item.amount : ℚ) * tax.rate)).sum)))).sum)

/-- From src/unnamed/part_004 (checkExpenseItems): the item-count bounds, the
non-zero total, and the receipt file requirement, in source order. -/
def checkExpenseItems (expenseType : String) (items : Option (List ExpenseItemData)) (taxes : List TaxDef) : Except ApiError Unit :=
  match items with
  | none => .error (.validationFailed "Your expense needs to have at least one item")
  | some l =>
    if l.length = 0 then .error (.validationFailed "Your expense needs to have at least one item")
    else if l.length > 300 then .error (.validationFailed "Expenses cannot have more than 300 items")
    else if computeTotalAmountForExpense l taxes = 0 then .error (.validationFailed "The sum of all items must be above 0")
    else if expenseType = "RECEIPT" ∧ l.any (fun a => a.url = none) then .error (.validationFailed "Some items are missing a file")
    else .ok ()

/-- From src/unnamed/part_004 (checkTaxes, single-tax body): the rate bound and
the VAT / GST feature gates for one tax definition. -/
def checkOneTax (accountHasVAT hostHasGST : Bool) (t : TaxDef) : Except ApiError Unit :=
  if t.rate < 0 ∨ t.rate > 1 then .error (.validationFailed "Tax rate must be between 0 and 1")
  else if t.taxType = "VAT" ∧ accountHasVAT = false then .error (.validationFailed "This account does not have VAT enabled")
  else if t.taxType = "GST" ∧ hostHasGST = false then .error (.validationFailed "This host does not have GST enabled")
  else .ok ()

/-- From src/unnamed/part_004 (checkTaxes): no taxes pass, more than one tax is
rejected, taxes are only allowed on invoices, and the single tax must satisfy
checkOneTax. -/
def checkTaxes (accountHasVAT hostHasGST : Bool) (expenseType : String) (taxes : List TaxDef) : Except ApiError Unit :=
  if taxes.length = 0 then .ok ()
  else if taxes.length > 1 then .error (.validationFailed "Only one tax is allowed per expense")
  else if expenseType ≠ "INVOICE" then .error (.validationFailed "Only invoices can have taxes")
  else
    match taxes with
    | [] => .ok ()
    | t :: _ => checkOneTax accountHasVAT hostHasGST t

/-- The request context of createExpense: each guard of the handler in source
order, reduced to the boolean fact the guard tests, plus the item, tax and
attached-file data the validations consume. -/
structure CreateExpenseInput where
  hasRemoteUser : Bool
  canUseExpensesFeature : Bool
  collectiveIdGiven : Bool
  collectiveFound : Bool
  publicSubmissionBlocked : Bool
  accountHasVAT : Bool
  hostHasGST : Bool
  expenseType : String
  items : Option (List ExpenseItemData)
  taxes : List TaxDef
  attachedFilesCount : Nat
  collectiveTypeAllowed : Bool
  customCurrencyRejected : Bool
  isAdminOfFromCollective : Bool
  fromCollectiveCanBeUsedAsPayoutProfile : Bool
  payoutMethodLookupError : Option ApiError
  deriving DecidableEq, Repr

/-- The created expense fields the claims inspect. -/
structure CreatedExpense where
  status : ExpenseStatus
  amount : ℤ
  deriving DecidableEq, Repr

/-- From src/unnamed/part_004 (createExpense): the guard chain in source order —
authentication, the feature gate, the collective lookup, the membership gate,
checkTaxes, checkExpenseItems, the 15-file cap, the collective-type gate, the
multi-currency gate, the payee-admin and payout-profile gates and the payout
method lookup — ending in a PENDING expense whose amount is the computed item
total. -/
def createExpense (i : CreateExpenseInput) : Except ApiError CreatedExpense := do
  if i.hasRemoteUser = false then
    .error (.unauthorized (some "You need to be logged in to create an expense"))
  else if i.canUseExpensesFeature = false then
    .error .featureNotAllowedForUser
  else if i.collectiveIdGiven = false then
    .error (.unauthorized (some "Missing expense.collective.id"))
  else if i.collectiveFound = false then
    .error (.validationFailed "Collective not found")
  else if i.publicSubmissionBlocked = true then
    .error (.internalError "You must be a member of the collective to create new expense")
  else do
    checkTaxes i.accountHasVAT i.hostHasGST i.expenseType i.taxes
    checkExpenseItems i.expenseType i.items i.taxes
    if i.attachedFilesCount > 15 then
      .error (.validationFailed "The number of files that you can attach to an expense is limited to 15")
    else if i.collectiveTypeAllowed = false then
      .error (.validationFailed "Expenses can only be submitted to Collectives, Events, Funds, Projects and active Hosts.")
    else if i.customCurrencyRejected = true then
      .error (.featureNotSupportedForCollective "Multi-currency expenses are not enabled for this account")
    else if i.isAdminOfFromCollective = false then
      .error (.validationFailed "You must be an admin of the account to submit an expense in its name")
    else if i.fromCollectiveCanBeUsedAsPayoutProfile = false then
      .error (.validationFailed "This account cannot be used for payouts")
    else
      match i.payoutMethodLookupError with
      | some e => .error e
      | none =>
        pure { status := .PENDING, amount := computeTotalAmountForExpense (i.items.getD []) i.taxes }

/-- A concrete createExpense request with an empty item list and every earlier
guard passing. -/
def emptyItemsExpenseInput : CreateExpenseInput :=
  { hasRemoteUser := true, canUseExpensesFeature := true, collectiveIdGiven := true,
    collectiveFound := true, publicSubmissionBlocked := false,
    accountHasVAT := false, hostHasGST := false, expenseType := "INVOICE",
    items := some [], taxes := [], attachedFilesCount := 0,
    collectiveTypeAllowed := true, customCurrencyRejected := false,
    isAdminOfFromCollective := true, fromCollectiveCanBeUsedAsPayoutProfile := true,
    payoutMethodLookupError := none }

/-- The rows createExpense writes: expense ids, expense items keyed by their
expense id, and attached files keyed by their expense id. -/
structure ExpenseDB where
  expenses : List ℕ
  items : List (ℕ × ℤ)
  files : List (ℕ × String)
  deriving DecidableEq, Repr

/-- Models the atomicity contract of sequelize.transaction used by
createExpense, per the spec (section 5: "DB transactions for atomicity of
multi-row ledger writes"): the callback runs against the database and either
commits all of its writes or, when it throws, rolls every write back so the
database is exactly the initial one. -/
def runInDbTransaction (db : ExpenseDB) (body : ExpenseDB → Except ApiError ExpenseDB) : Except ApiError ExpenseDB × ExpenseDB :=
  match body db with
  | .ok db2 => (.ok db2, db2)
  | .error e => (.error e, db)

/-- A row creation request inside the createExpense transaction, paired with
whether the database write fails (models ExpenseItem.createFromData or
ExpenseAttachedFile.createFromData throwing). -/
structure ItemWrite where
  amount : ℤ
  fails : Bool
  deriving DecidableEq, Repr

/-- A file creation request inside the createExpense transaction. -/
structure FileWrite where
  url : String
  fails : Bool
  deriving DecidableEq, Repr

/-- One ExpenseItem.createFromData call inside the transaction. -/
def itemWriteStep (newId : ℕ) (d : ExpenseDB) (w : ItemWrite) : Except ApiError ExpenseDB :=
  if w.fails then Except.error (.internalError "item creation failed")
  else Except.ok { d with items := d.items ++ [(newId, w.amount)] }

/-- One ExpenseAttachedFile.createFromData call inside the transaction. -/
def fileWriteStep (newId : ℕ) (d : ExpenseDB) (w : FileWrite) : Except ApiError ExpenseDB :=
  if w.fails then Except.error (.internalError "attached file creation failed")
  else Except.ok { d with files := d.files ++ [(newId, w.url)] }

/-- From src/unnamed/part_004 (createExpense, the sequelize.transaction
callback): create the expense row, then every item, then every attached file,
propagating the first failure. -/
def createExpenseTxnBody (newId : ℕ) (itemWrites : List ItemWrite) (fileWrites : List FileWrite) (db : ExpenseDB) : Except ApiError ExpenseDB := do
  let db1 : ExpenseDB := { db with expenses := db.expenses ++ [newId] }
  let db2 ← itemWrites.foldlM (itemWriteStep newId) db1
  let db3 ← fileWrites.foldlM (fileWriteStep newId) db2
  pure db3

/-- The multi-row write of createExpense, wrapped in the database transaction
exactly as the source does. -/
def createExpenseRows (db : ExpenseDB) (newId : ℕ) (itemWrites : List ItemWrite) (fileWrites : List FileWrite) : Except ApiError ExpenseDB × ExpenseDB :=
  runInDbTransaction db (createExpenseTxnBody newId itemWrites fileWrites)

/- ----------------------------------------------------------------- -/
/- C1 / C2: contribution ledger generation                            -/
/-     (Transaction.createFromContributionPayload)                    -/
/- ----------------------------------------------------------------- -/

/-- Ledger transaction kinds (src/server/constants/transaction-kind, the kinds
the contribution flow produces). -/
inductive TxnKind
  | CONTRIBUTION
  | HOST_FEE
  | PLATFORM_TIP
  | PLATFORM_TIP_DEBT
  deriving DecidableEq, Repr

/-- Ledger entry directions. -/
inductive TxnType
  | CREDIT
  | DEBIT
  deriving DecidableEq, Repr

/-- One generated ledger transaction: the fields asserted by
src/test/server/models/Transaction.test.js. -/
structure LedgerTxn where
  kind : TxnKind
  txnType : TxnType
  amount : ℤ
  netAmountInCollectiveCurrency : ℤ
  platformFeeInHostCurrency : ℤ
  hostFeeInHostCurrency : ℤ
  paymentProcessorFeeInHostCurrency : ℤ
  taxAmount : Option ℤ
  sameTransactionGroup : Bool
  deriving DecidableEq, Repr

/-- The contribution payload handed to Transaction.createFromContributionPayload:
amounts in cents, the host-currency FX rate, the fees in host currency, an
optional tax amount, and the data.isFeesOnTop flag. -/
structure ContributionPayload where
  amount : ℤ
  amountInHostCurrency : ℤ
  hostCurrencyFxRate : ℚ
  platformFeeInHostCurrency : ℤ
  hostFeeInHostCurrency : ℤ
  paymentProcessorFeeInHostCurrency : ℤ
  taxAmount : Option ℤ
  isFeesOnTop : Bool
  deriving DecidableEq, Repr

/-- Rounded conversion of a host-currency amount back to collective currency
through the payload FX rate. -/
def hostToCollective (p : ContributionPayload) (x : ℤ) : ℤ :=
  round ((x : ℚ) / p.hostCurrencyFxRate)

/-- Modelled from the spec: the CONTRIBUTION CREDIT generated by
Transaction.createFromContributionPayload (the Transaction model itself is not
under src/, only src/test/server/models/Transaction.test.js is).  Per the spec
("double-entry transaction generation with multi-currency FX handling") and the
test expectations: the credit keeps the payload amount, stores the platform,
payment-processor fees and tax negated, moves the host fee to its own pair, and
nets the amount minus the fees converted to collective currency minus the tax. -/
def contributionCredit (p : ContributionPayload) : LedgerTxn :=
  { kind := .CONTRIBUTION,
    txnType := .CREDIT,
    amount := p.amount,
    netAmountInCollectiveCurrency :=
      p.amount - hostToCollective p (p.platformFeeInHostCurrency + p.paymentProcessorFeeInHostCurrency)
        - p.taxAmount.getD 0,
    platformFeeInHostCurrency := -p.platformFeeInHostCurrency,
    hostFeeInHostCurrency := 0,
    paymentProcessorFeeInHostCurrency := -p.paymentProcessorFeeInHostCurrency,
    taxAmount := p.taxAmount.map (fun t => -t),
    sameTransactionGroup := true }

/-- Modelled from the spec: the double-entry CONTRIBUTION DEBIT mirroring the
credit — its net amount is the negated payload amount, as the test expects. -/
def contributionDebit (p : ContributionPayload) : LedgerTxn :=
  { kind := .CONTRIBUTION,
    txnType := .DEBIT,
    amount := -(contributionCredit p).netAmountInCollectiveCurrency,
    netAmountInCollectiveCurrency := -p.amount,
    platformFeeInHostCurrency := 0,
    hostFeeInHostCurrency := 0,
    paymentProcessorFeeInHostCurrency := 0,
    taxAmount := p.taxAmount.map (fun t => -t),
    sameTransactionGroup := true }

/-- Modelled from the spec: the separate HOST_FEE pair the contribution flow
emits for the host fee taken out of the collective. -/
def hostFeePair (p : ContributionPayload) : List LedgerTxn :=
  [ { kind := .HOST_FEE, txnType := .DEBIT,
      amount := -(hostToCollective p p.hostFeeInHostCurrency),
      netAmountInCollectiveCurrency := -(hostToCollective p p.hostFeeInHostCurrency),
      platformFeeInHostCurrency := 0, hostFeeInHostCurrency := 0,
      paymentProcessorFeeInHostCurrency := 0, taxAmount := none,
      sameTransactionGroup := true },
    { kind := .HOST_FEE, txnType := .CREDIT,
      amount := hostToCollective p p.hostFeeInHostCurrency,
      netAmountInCollectiveCurrency := hostToCollective p p.hostFeeInHostCurrency,
      platformFeeInHostCurrency := 0, hostFeeInHostCurrency := 0,
      paymentProcessorFeeInHostCurrency := 0, taxAmount := none,
      sameTransactionGroup := true } ]

/-- Modelled from the spec: the main double-entry block — the CONTRIBUTION
DEBIT / CREDIT pair followed by the HOST_FEE pair (four transactions). -/
def contributionEntries (p : ContributionPayload) : List LedgerTxn :=
  [contributionDebit p, contributionCredit p] ++ hostFeePair p

/-- Modelled from the spec: the PLATFORM_TIP CREDIT / DEBIT pair between the
contributor and the platform, in the TransactionGroup of the contribution. -/
def platformTipPair (tipInCollectiveCurrency : ℤ) : List LedgerTxn :=
  [ { kind := .PLATFORM_TIP, txnType := .CREDIT,
      amount := tipInCollectiveCurrency,
      netAmountInCollectiveCurrency := tipInCollectiveCurrency,
      platformFeeInHostCurrency := 0, hostFeeInHostCurrency := 0,
      paymentProcessorFeeInHostCurrency := 0, taxAmount := none,
      sameTransactionGroup := true },
    { kind := .PLATFORM_TIP, txnType := .DEBIT,
      amount := -tipInCollectiveCurrency,
      netAmountInCollectiveCurrency := -tipInCollectiveCurrency,
      platformFeeInHostCurrency := 0, hostFeeInHostCurrency := 0,
      paymentProcessorFeeInHostCurrency := 0, taxAmount := none,
      sameTransactionGroup := true } ]

/-- Modelled from the spec: the PLATFORM_TIP_DEBT pair recording that the host
owes the tip to the platform, in the TransactionGroup of the contribution. -/
def platformTipDebtPair (tipInCollectiveCurrency : ℤ) : List LedgerTxn :=
  [ { kind := .PLATFORM_TIP_DEBT, txnType := .CREDIT,
      amount := tipInCollectiveCurrency,
      netAmountInCollectiveCurrency := tipInCollectiveCurrency,
      platformFeeInHostCurrency := 0, hostFeeInHostCurrency := 0,
      paymentProcessorFeeInHostCurrency := 0, taxAmount := none,
      sameTransactionGroup := true },
    { kind := .PLATFORM_TIP_DEBT, txnType := .DEBIT,
      amount := -tipInCollectiveCurrency,
      netAmountInCollectiveCurrency := -tipInCollectiveCurrency,
      platformFeeInHostCurrency := 0, hostFeeInHostCurrency := 0,
      paymentProcessorFeeInHostCurrency := 0, taxAmount := none,
      sameTransactionGroup := true } ]

/-- Modelled from the spec: Transaction.createFromContributionPayload
("double-entry transaction generation with multi-currency FX handling,
platform-tip/host-fee-share accounting"; the Transaction model file is not
under src/, its behaviour is pinned by src/test/server/models/Transaction.test.js).
When data.isFeesOnTop is set and the platform fee is non-zero, the platform
fee is a tip: it is removed from the contribution amounts and platform fee of
the main pair, and a PLATFORM_TIP pair plus a PLATFORM_TIP_DEBT pair are
appended in the same TransactionGroup (eight transactions).  Otherwise only the
contribution pair and the host-fee pair are generated (four transactions). -/
def createFromContributionPayload (p : ContributionPayload) : List LedgerTxn :=
  if p.isFeesOnTop = true ∧ p.platformFeeInHostCurrency ≠ 0 then
    let tipInCollectiveCurrency := hostToCollective p p.platformFeeInHostCurrency
    let reduced : ContributionPayload :=
      { p with amount := p.amount - tipInCollectiveCurrency,
               amountInHostCurrency := p.amountInHostCurrency - p.platformFeeInHostCurrency,
               platformFeeInHostCurrency := 0 }
    contributionEntries reduced ++ platformTipPair tipInCollectiveCurrency
      ++ platformTipDebtPair tipInCollectiveCurrency
  else
    contributionEntries p

/-- The payload of the "Stripe donation in EUR on a USD host" test of
src/test/server/models/Transaction.test.js: EUR amounts, host currency USD at
rate 1.1, fees of 550 / 550 / 330 in host currency, no tax. -/
def usdHostTestPayload : ContributionPayload :=
  { amount := 10000, amountInHostCurrency := 11000, hostCurrencyFxRate := 11 / 10,
    platformFeeInHostCurrency := 550, hostFeeInHostCurrency := 550,
    paymentProcessorFeeInHostCurrency := 330, taxAmount := none, isFeesOnTop := false }

/-- The payload of the "should deduct the platform fee from the main
transactions" fees-on-top test of src/test/server/models/Transaction.test.js. -/
def feesOnTopTestPayload : ContributionPayload :=
  { amount := 11000, amountInHostCurrency := 11000, hostCurrencyFxRate := 1,
    platformFeeInHostCurrency := 1000, hostFeeInHostCurrency := 500,
    paymentProcessorFeeInHostCurrency := 300, taxAmount := none, isFeesOnTop := true }

/- ================================================================= -/
/- Theorems                                                           -/
/- ================================================================= -/

/-- C9 counterexample: the claim asserts that for every rate r and currencies
s, t the swapped combination returns the inverse 1/r, but when s and t are the
same currency the first branch of matchFxRateWithCurrency fires and the rate
is returned unchanged: with s = t = USD and r = 2 the code returns 2, not 1/2. -/
theorem C9_counterexample :
    matchFxRateWithCurrency "USD" "USD" "USD" "USD" (some 2) = some 2 ∧
    matchFxRateWithCurrency "USD" "USD" "USD" "USD" (some 2) ≠ some (1 / 2) := by
  have h : matchFxRateWithCurrency "USD" "USD" "USD" "USD" (some 2) = some 2 := by
    simp [matchFxRateWithCurrency]
  refine ⟨h, ?_⟩
  rw [h]
  intro hc
  have : (2 : ℚ) = 1 / 2 := Option.some.inj hc
  norm_num at this

/-- C9 amended: for distinct currencies s ≠ t and a non-zero rate r,
matchFxRateWithCurrency returns r on the expected pair, 1/r on the swapped
pair, and nothing on any other combination or on a missing rate; and
getWiseFxRateInfoFromExpenseData returns exactly the value-1 record whenever
the expected source and target currencies coincide. -/
theorem C9_amended (s t : String) (r : ℚ) (hst : s ≠ t) (hr : r ≠ 0) :
    matchFxRateWithCurrency s t s t (some r) = some r ∧
    matchFxRateWithCurrency s t t s (some r) = some (1 / r) ∧
    (∀ u v : String, ¬(s = u ∧ t = v) → ¬(s = v ∧ t = u) →
      matchFxRateWithCurrency s t u v (some r) = none) ∧
    (∀ u v : String, matchFxRateWithCurrency s t u v none = none) ∧
    (∀ d : Option WiseExpenseData, ∀ c : String,
      getWiseFxRateInfoFromExpenseData d c c = some { value := 1, date := none, isFinal := none }) := by
  refine ⟨?_, ?_, ?_, ?_, ?_⟩
  · simp [matchFxRateWithCurrency, hr]
  · simp [matchFxRateWithCurrency, hr, hst, (by tauto : ¬(s = t ∧ t = s))]
  · intro u v h1 h2
    simp [matchFxRateWithCurrency, hr, h1, h2]
  · intro u v
    simp [matchFxRateWithCurrency]
  · intro d c
    simp [getWiseFxRateInfoFromExpenseData]

/-- C9 witness: the amended statement applied to the concrete pair EUR to USD
with rate 2. -/
theorem C9_witness :
    matchFxRateWithCurrency "EUR" "USD" "USD" "EUR" (some 2) = some (1 / 2) :=
  (C9_amended "EUR" "USD" 2 (by decide) (by norm_num)).2.1

/-- C8: a createVirtualCard request from a logged-in user whose monthly limit
exceeds 200000 cents is rejected with BadRequest before any card is created
(zero Stripe card creations), and editVirtualCard enforces the same cap when
the card has a MONTHLY spending-limit interval and the STRIPE provider. -/
theorem C8_spec (a : CreateVirtualCardArgs) (e : EditVirtualCardArgs) (limit : ℤ)
    (ha1 : a.hasRemoteUser = true) (ha2 : a.monthlyLimitValueInCents > 200000)
    (he1 : e.hasRemoteUser = true) (he2 : e.cardExists = true) (he3 : e.isHostAdmin = true)
    (he4 : e.assigneeGiven = true → e.assigneeHasUser = true)
    (he5 : e.monthlyLimitValueInCents = some limit) (he6 : limit > 200000)
    (he7 : e.spendingLimitInterval = "MONTHLY") (he8 : e.provider = "STRIPE") :
    createVirtualCard a = (.error (.badRequest "Monthly limit should not exceed 2000"), 0) ∧
    editVirtualCard e = .error (.badRequest "Monthly limit should not exceed 2000") := by
  constructor
  · simp only [createVirtualCard, ha1, MAXIMUM_MONTHLY_LIMIT]
    norm_num
    omega
  · have hassign : ¬(e.assigneeGiven = true ∧ e.assigneeHasUser = false) := by
      rcases hA : e.assigneeGiven with _ | _
      · simp [hA]
      · simp [hA, he4 hA]
    simp only [editVirtualCard, he1, he2, he3, he5, he7, he8, hassign, MAXIMUM_MONTHLY_LIMIT]
    norm_num
    omega

/-- C8 witness: the theorem applied to a concrete over-limit create request and
a concrete over-limit edit of a MONTHLY STRIPE card. -/
theorem C8_witness :
    createVirtualCard
        { hasRemoteUser := true, monthlyLimitValueInCents := 250000,
          isHostAdmin := true, assigneeHasUser := true }
      = (.error (.badRequest "Monthly limit should not exceed 2000"), 0) ∧
    editVirtualCard
        { hasRemoteUser := true, cardExists := true, isHostAdmin := true,
          assigneeGiven := false, assigneeHasUser := false, nameGiven := none,
          monthlyLimitValueInCents := some 300000,
          spendingLimitInterval := "MONTHLY", provider := "STRIPE" }
      = .error (.badRequest "Monthly limit should not exceed 2000") :=
  C8_spec _ _ 300000 rfl (by norm_num) rfl rfl rfl (by simp) rfl (by norm_num) rfl rfl

/-- C10: evaluation of the code at the failing input.  The legal name has three
words, so per the claim only the direct comparison should apply, and the direct
comparison fails; but because the undefined reversed name is coerced to the
string "undefined" by localeCompare, an account holder named "Undefined"
matches: the code returns true where the claim requires false. -/
theorem C10_bug_eval :
    isAccountHolderNameAndLegalNameMatch "Undefined" "John Ronald Reuel" = true ∧
    baseNamesEqual (strip501 "Undefined") (strip501 "John Ronald Reuel") = false ∧
    (splitOnSpace (trimChars (strip501 "John Ronald Reuel").data)).length = 3 := by
  decide

/-- Helper for C3: a payExpense run that ends with the expense PAID must have
started from APPROVED or ERROR, whatever the other guards were. -/
theorem payExpense_paid_source (ctx : PayExpenseCtx) (h : payExpense ctx = .ok .PAID) :
    ctx.status = .APPROVED ∨ ctx.status = .ERROR := by
  by_cases hA : ctx.status = .APPROVED
  · exact Or.inl hA
  by_cases hE : ctx.status = .ERROR
  · exact Or.inr hE
  exfalso
  rcases h1 : ctx.req.hasRemoteUser with _ | _
  · simp [payExpense, h1] at h
  rcases h2 : ctx.req.canUseExpensesFeature with _ | _
  · simp [payExpense, h1, h2] at h
  rcases h3 : ctx.expenseExists with _ | _
  · simp [payExpense, h1, h2, h3] at h
  rcases h4 : ctx.isLocked with _ | _
  · by_cases hp : ctx.status = .PAID
    · simp [payExpense, h1, h2, h3, h4, hp] at h
    by_cases hpr : ctx.status = .PROCESSING
    · simp [payExpense, h1, h2, h3, h4, hpr] at h
    · simp [payExpense, h1, h2, h3, h4, hp, hpr, hA, hE] at h
  · simp [payExpense, h1, h2, h3, h4] at h

/-- C3: once the authentication, feature, lookup and lock guards pass,
payExpense throws Unauthorized with the message "Expense has already been paid"
on a PAID expense, Unauthorized on a PROCESSING expense, and Unauthorized on
every other status that is neither APPROVED nor ERROR; and, unconditionally, a
run of payExpense that ends with the expense PAID started from APPROVED or
ERROR — the documented pending to approved to paid state diagram. -/
theorem C3_spec (ctx : PayExpenseCtx) :
    (ctx.req.hasRemoteUser = true → ctx.req.canUseExpensesFeature = true →
     ctx.expenseExists = true → ctx.isLocked = false →
      (ctx.status = .PAID →
        payExpense ctx = .error (.unauthorized (some "Expense has already been paid"))) ∧
      (ctx.status = .PROCESSING → ∃ m, payExpense ctx = .error (.unauthorized m)) ∧
      (ctx.status ≠ .APPROVED → ctx.status ≠ .ERROR →
        ∃ m, payExpense ctx = .error (.unauthorized m))) ∧
    (payExpense ctx = .ok .PAID → ctx.status = .APPROVED ∨ ctx.status = .ERROR) := by
  constructor
  · intro h1 h2 h3 h4
    refine ⟨?_, ?_, ?_⟩
    · intro hs
      simp [payExpense, h1, h2, h3, h4, hs]
    · intro hs
      exact ⟨some "Expense is currently being processed, this means someone already started the payment process",
        by simp [payExpense, h1, h2, h3, h4, hs]⟩
    · intro hA hE
      by_cases hp : ctx.status = .PAID
      · exact ⟨some "Expense has already been paid", by simp [payExpense, h1, h2, h3, h4, hp]⟩
      · by_cases hpr : ctx.status = .PROCESSING
        · exact ⟨some "Expense is currently being processed, this means someone already started the payment process",
            by simp [payExpense, h1, h2, h3, h4, hpr]⟩
        · exact ⟨some "Expense needs to be approved",
            by simp [payExpense, h1, h2, h3, h4, hp, hpr, hA, hE]⟩
  · exact payExpense_paid_source ctx

/-- C3 witness: the theorem applied to a context whose expense is PAID yields
the already-paid error, and the remaining conjuncts are discharged on the same
concrete context. -/
theorem C3_witness :
    payExpense
        { req := { hasRemoteUser := true, remoteUserId := 1, canUseExpensesFeature := true,
                   isOwner := false, isCollectiveAdmin := false, isHostAdmin := true,
                   authorCannotApprovePolicy := false, isAuthor := false },
          expenseExists := true, isLocked := false, status := .PAID,
          sameCurrency := true, multiCurrencyEnabled := false,
          legacyPayoutMethodDonation := false, paymentOutcome := .succeeds }
      = .error (.unauthorized (some "Expense has already been paid")) :=
  ((C3_spec _).1 rfl rfl rfl rfl).1 rfl

/-- C5: for each of the four status actions, when the expense is already in the
target status the action returns the row unchanged with no update and no
activity; and when it is not and the matching permission evaluator denies the
request, the action throws Forbidden and the row is unchanged with no activity. -/
theorem C5_spec (req : ExpenseReq) (e : ExpenseRow) :
    (e.status = .APPROVED →
      approveExpense req e = { result := .ok e, finalRow := e, activitiesCreated := [] }) ∧
    (e.status ≠ .APPROVED → canApprove req e = false →
      approveExpense req e = { result := .error .forbidden, finalRow := e, activitiesCreated := [] }) ∧
    (e.status = .PENDING →
      unapproveExpense req e = { result := .ok e, finalRow := e, activitiesCreated := [] }) ∧
    (e.status ≠ .PENDING → canUnapprove req e = false →
      unapproveExpense req e = { result := .error .forbidden, finalRow := e, activitiesCreated := [] }) ∧
    (e.status = .REJECTED →
      rejectExpense req e = { result := .ok e, finalRow := e, activitiesCreated := [] }) ∧
    (e.status ≠ .REJECTED → canReject req e = false →
      rejectExpense req e = { result := .error .forbidden, finalRow := e, activitiesCreated := [] }) ∧
    (e.status = .SPAM →
      markExpenseAsSpam req e = { result := .ok e, finalRow := e, activitiesCreated := [] }) ∧
    (e.status ≠ .SPAM → canMarkAsSpam req e = false →
      markExpenseAsSpam req e = { result := .error .forbidden, finalRow := e, activitiesCreated := [] }) := by
  refine ⟨?_, ?_, ?_, ?_, ?_, ?_, ?_, ?_⟩ <;> intro h
  · simp [approveExpense, h]
  · intro hperm
    simp [approveExpense, h, hperm]
  · simp [unapproveExpense, h]
  · intro hperm
    simp [unapproveExpense, h, hperm]
  · simp [rejectExpense, h]
  · intro hperm
    simp [rejectExpense, h, hperm]
  · simp [markExpenseAsSpam, h]
  · intro hperm
    simp [markExpenseAsSpam, h, hperm]

/-- C5 witness: applied to a PENDING expense and a request denied by every
evaluator, approveExpense throws Forbidden and leaves the row unchanged. -/
theorem C5_witness :
    approveExpense
        { hasRemoteUser := true, remoteUserId := 7, canUseExpensesFeature := true,
          isOwner := false, isCollectiveAdmin := false, isHostAdmin := false,
          authorCannotApprovePolicy := false, isAuthor := false }
        { status := .PENDING, lastEditedById := 3 }
      = { result := .error .forbidden,
          finalRow := { status := .PENDING, lastEditedById := 3 },
          activitiesCreated := [] } :=
  (C5_spec _ _).2.1 (by simp) (by simp [canApprove, remoteUserMeetsOneCondition])

/-- Helper for C4: a successful getExpenseFees call returns the record built
from some resolved payment processor fee. -/
theorem getExpenseFees_ok (i : GetExpenseFeesInput) (r : ExpenseFeesResult)
    (h : getExpenseFees i = .ok r) :
    ∃ ppf : Option ℤ, r = buildExpenseFees i ppf := by
  unfold getExpenseFees at h
  cases hres : resolvePaymentProcessorFee i with
  | error e => rw [hres] at h; cases h
  | ok ppf =>
    rw [hres] at h
    exact ⟨ppf, (Except.ok.inj h).symm⟩

/-- C4: every successful getExpenseFees result has its host-currency fees equal
to the rounding of the collective-to-host FX rate times the corresponding fee
in collective currency (missing fees counting as 0), and when the expense
currency equals the collective currency the fees in expense currency are the
fees in collective currency verbatim, with no further conversion. -/
theorem C4_spec (i : GetExpenseFeesInput) (r : ExpenseFeesResult)
    (h : getExpenseFees i = .ok r) :
    r.feesInHostCurrency.paymentProcessorFeeInHostCurrency
      = round (i.collectiveToHostFxRate * ((r.feesInCollectiveCurrency.paymentProcessorFeeInCollectiveCurrency.getD 0 : ℤ) : ℚ)) ∧
    r.feesInHostCurrency.hostFeeInHostCurrency
      = round (i.collectiveToHostFxRate * ((r.feesInCollectiveCurrency.hostFeeInCollectiveCurrency.getD 0 : ℤ) : ℚ)) ∧
    r.feesInHostCurrency.platformFeeInHostCurrency
      = round (i.collectiveToHostFxRate * ((r.feesInCollectiveCurrency.platformFeeInCollectiveCurrency.getD 0 : ℤ) : ℚ)) ∧
    (i.expenseCurrencyEqualsCollectiveCurrency = true →
      r.feesInExpenseCurrency
        = { paymentProcessorFee := r.feesInCollectiveCurrency.paymentProcessorFeeInCollectiveCurrency,
            hostFee := r.feesInCollectiveCurrency.hostFeeInCollectiveCurrency,
            platformFee := r.feesInCollectiveCurrency.platformFeeInCollectiveCurrency }) := by
  obtain ⟨ppf, rfl⟩ := getExpenseFees_ok i r h
  refine ⟨?_, ?_, ?_, ?_⟩
  · simp [buildExpenseFees]
  · simp [buildExpenseFees]
  · simp [buildExpenseFees]
  · intro hc
    simp [buildExpenseFees, hc]

/-- C4 witness: the theorem applied to the concrete sampleFeesInput, whose
getExpenseFees call succeeds with the manually provided processor fee. -/
theorem C4_witness :
    (buildExpenseFees sampleFeesInput (some 300)).feesInHostCurrency.paymentProcessorFeeInHostCurrency
      = round (sampleFeesInput.collectiveToHostFxRate *
          (((buildExpenseFees sampleFeesInput (some 300)).feesInCollectiveCurrency.paymentProcessorFeeInCollectiveCurrency.getD 0 : ℤ) : ℚ)) :=
  (C4_spec sampleFeesInput (buildExpenseFees sampleFeesInput (some 300)) (by rfl)).1

/-- C6: createExpense throws Unauthorized without a logged-in user; once the
preceding guards pass it throws ValidationFailed for a missing or empty item
list, for more than 300 items, for a zero rounded total, and for more than 15
attached files; and every successful call returns a PENDING expense whose
amount is the rounded sum of the item amounts plus the per-item taxes. -/
theorem C6_spec (i : CreateExpenseInput) :
    (i.hasRemoteUser = false →
      createExpense i = .error (.unauthorized (some "You need to be logged in to create an expense"))) ∧
    (i.hasRemoteUser = true → i.canUseExpensesFeature = true → i.collectiveIdGiven = true →
     i.collectiveFound = true → i.publicSubmissionBlocked = false →
     checkTaxes i.accountHasVAT i.hostHasGST i.expenseType i.taxes = .ok () →
      ((i.items = none ∨ i.items = some [] →
         createExpense i = .error (.validationFailed "Your expense needs to have at least one item")) ∧
       (∀ l, i.items = some l → l.length > 300 →
         createExpense i = .error (.validationFailed "Expenses cannot have more than 300 items")) ∧
       (∀ l, i.items = some l → 0 < l.length → l.length ≤ 300 →
         computeTotalAmountForExpense l i.taxes = 0 →
         createExpense i = .error (.validationFailed "The sum of all items must be above 0")) ∧
       (checkExpenseItems i.expenseType i.items i.taxes = .ok () → i.attachedFilesCount > 15 →
         createExpense i = .error (.validationFailed "The number of files that you can attach to an expense is limited to 15")))) ∧
    (∀ ex, createExpense i = .ok ex →
      ex.status = .PENDING ∧ ex.amount = computeTotalAmountForExpense (i.items.getD []) i.taxes) := by
  refine ⟨?_, ?_, ?_⟩
  · intro h
    simp [createExpense, bind, Except.bind, pure, Except.pure, h]
  · intro h1 h2 h3 h4 h5 htax
    refine ⟨?_, ?_, ?_, ?_⟩
    · intro hitems
      rcases hitems with hnone | hnil
      · simp [createExpense, bind, Except.bind, pure, Except.pure, checkExpenseItems, h1, h2, h3, h4, h5, htax, hnone]
      · simp [createExpense, bind, Except.bind, pure, Except.pure, checkExpenseItems, h1, h2, h3, h4, h5, htax, hnil]
    · intro l hl hlen
      have hne : ¬(l.length = 0) := by omega
      simp [createExpense, bind, Except.bind, pure, Except.pure, checkExpenseItems, h1, h2, h3, h4, h5, htax, hl, hne, hlen]
    · intro l hl hpos hle hzero
      have hne : ¬(l.length = 0) := by omega
      have hnb : ¬(l.length > 300) := by omega
      simp [createExpense, bind, Except.bind, pure, Except.pure, checkExpenseItems, h1, h2, h3, h4, h5, htax, hl, hne, hnb, hzero]
    · intro hcheck hfiles
      simp [createExpense, bind, Except.bind, pure, Except.pure, h1, h2, h3, h4, h5, htax, hcheck, hfiles]
  · intro ex h
    rcases hu : i.hasRemoteUser with _ | _
    · simp [createExpense, bind, Except.bind, pure, Except.pure, hu] at h
    rcases hf : i.canUseExpensesFeature with _ | _
    · simp [createExpense, bind, Except.bind, pure, Except.pure, hu, hf] at h
    rcases hc : i.collectiveIdGiven with _ | _
    · simp [createExpense, bind, Except.bind, pure, Except.pure, hu, hf, hc] at h
    rcases hcf : i.collectiveFound with _ | _
    · simp [createExpense, bind, Except.bind, pure, Except.pure, hu, hf, hc, hcf] at h
    rcases hpb : i.publicSubmissionBlocked with _ | _
    · cases htax : checkTaxes i.accountHasVAT i.hostHasGST i.expenseType i.taxes with
      | error e => simp [createExpense, bind, Except.bind, pure, Except.pure, hu, hf, hc, hcf, hpb, htax] at h
      | ok u =>
        cases u
        cases hitems : checkExpenseItems i.expenseType i.items i.taxes with
        | error e => simp [createExpense, bind, Except.bind, pure, Except.pure, hu, hf, hc, hcf, hpb, htax, hitems] at h
        | ok u =>
          cases u
          by_cases hfiles : i.attachedFilesCount > 15
          · simp [createExpense, bind, Except.bind, pure, Except.pure, hu, hf, hc, hcf, hpb, htax, hitems, hfiles] at h
          rcases hta : i.collectiveTypeAllowed with _ | _
          · simp [createExpense, bind, Except.bind, pure, Except.pure, hu, hf, hc, hcf, hpb, htax, hitems, hfiles, hta] at h
          rcases hcur : i.customCurrencyRejected with _ | _
          swap
          · simp [createExpense, bind, Except.bind, pure, Except.pure, hu, hf, hc, hcf, hpb, htax, hitems, hfiles, hta, hcur] at h
          rcases hadm : i.isAdminOfFromCollective with _ | _
          · simp [createExpense, bind, Except.bind, pure, Except.pure, hu, hf, hc, hcf, hpb, htax, hitems, hfiles, hta, hcur, hadm] at h
          rcases hpp : i.fromCollectiveCanBeUsedAsPayoutProfile with _ | _
          · simp [createExpense, bind, Except.bind, pure, Except.pure, hu, hf, hc, hcf, hpb, htax, hitems, hfiles, hta, hcur, hadm, hpp] at h
          cases hpm : i.payoutMethodLookupError with
          | some e => simp [createExpense, bind, Except.bind, pure, Except.pure, hu, hf, hc, hcf, hpb, htax, hitems, hfiles, hta, hcur, hadm, hpp, hpm] at h
          | none =>
            simp [createExpense, bind, Except.bind, pure, Except.pure, hu, hf, hc, hcf, hpb, htax, hitems, hfiles, hta, hcur, hadm, hpp, hpm] at h
            simp [← h]
    · simp [createExpense, bind, Except.bind, pure, Except.pure, hu, hf, hc, hcf, hpb] at h

/-- C6 witness: the theorem applied to a request with an empty item list and
every earlier guard passing. -/
theorem C6_witness :
    createExpense emptyItemsExpenseInput
      = .error (.validationFailed "Your expense needs to have at least one item") :=
  ((C6_spec emptyItemsExpenseInput).2.1 rfl rfl rfl rfl rfl (by rfl)).1 (Or.inr rfl)

/-- Helper for C7: when some item write fails, the item fold fails. -/
theorem itemsFoldlM_error (newId : ℕ) (l : List ItemWrite) (d : ExpenseDB)
    (h : l.any (fun w => w.fails) = true) :
    l.foldlM (itemWriteStep newId) d = .error (.internalError "item creation failed") := by
  induction l generalizing d with
  | nil => simp at h
  | cons w ws ih =>
    rcases hw : w.fails with _ | _
    · simp only [List.foldlM_cons, itemWriteStep, hw, if_neg Bool.false_ne_true, bind, Except.bind]
      exact ih _ (by simpa [hw] using h)
    · simp [List.foldlM_cons, itemWriteStep, hw, bind, Except.bind]

/-- Helper for C7: when some file write fails, the file fold fails. -/
theorem filesFoldlM_error (newId : ℕ) (l : List FileWrite) (d : ExpenseDB)
    (h : l.any (fun w => w.fails) = true) :
    l.foldlM (fileWriteStep newId) d = .error (.internalError "attached file creation failed") := by
  induction l generalizing d with
  | nil => simp at h
  | cons w ws ih =>
    rcases hw : w.fails with _ | _
    · simp only [List.foldlM_cons, fileWriteStep, hw, if_neg Bool.false_ne_true, bind, Except.bind]
      exact ih _ (by simpa [hw] using h)
    · simp [List.foldlM_cons, fileWriteStep, hw, bind, Except.bind]

/-- Helper for C7: the item fold never touches the expense id list. -/
theorem itemsFoldlM_ok_expenses (newId : ℕ) (l : List ItemWrite) (d d2 : ExpenseDB)
    (h : l.foldlM (itemWriteStep newId) d = .ok d2) : d2.expenses = d.expenses := by
  induction l generalizing d with
  | nil =>
    simp only [List.foldlM_nil, pure, Except.pure] at h
    cases h
    rfl
  | cons w ws ih =>
    rcases hw : w.fails with _ | _
    · simp only [List.foldlM_cons, itemWriteStep, hw, if_neg Bool.false_ne_true, bind, Except.bind] at h
      simpa using ih { expenses := d.expenses, items := d.items ++ [(newId, w.amount)], files := d.files } h
    · simp [List.foldlM_cons, itemWriteStep, hw, bind, Except.bind] at h

/-- Helper for C7: the file fold never touches the expense id list. -/
theorem filesFoldlM_ok_expenses (newId : ℕ) (l : List FileWrite) (d d2 : ExpenseDB)
    (h : l.foldlM (fileWriteStep newId) d = .ok d2) : d2.expenses = d.expenses := by
  induction l generalizing d with
  | nil =>
    simp only [List.foldlM_nil, pure, Except.pure] at h
    cases h
    rfl
  | cons w ws ih =>
    rcases hw : w.fails with _ | _
    · simp only [List.foldlM_cons, fileWriteStep, hw, if_neg Bool.false_ne_true, bind, Except.bind] at h
      simpa using ih { expenses := d.expenses, items := d.items, files := d.files ++ [(newId, w.url)] } h
    · simp [List.foldlM_cons, fileWriteStep, hw, bind, Except.bind] at h

/-- C7: the multi-row write of createExpense is atomic.  Every error outcome
leaves the database exactly as it was — in particular, whenever any item or
attached-file creation fails the call errors and neither the expense row nor
any subset of the items persists — and a successful call commits the expense
row together with all of its writes. -/
theorem C7_spec (db : ExpenseDB) (newId : ℕ) (itemWrites : List ItemWrite) (fileWrites : List FileWrite) :
    (∀ e, (createExpenseRows db newId itemWrites fileWrites).1 = .error e →
      (createExpenseRows db newId itemWrites fileWrites).2 = db) ∧
    ((itemWrites.any (fun w => w.fails) = true ∨ fileWrites.any (fun w => w.fails) = true) →
      ∃ e, (createExpenseRows db newId itemWrites fileWrites).1 = .error e ∧
        (createExpenseRows db newId itemWrites fileWrites).2 = db) ∧
    (∀ db2, (createExpenseRows db newId itemWrites fileWrites).1 = .ok db2 →
      (createExpenseRows db newId itemWrites fileWrites).2 = db2 ∧
      db2.expenses = db.expenses ++ [newId]) := by
  refine ⟨?_, ?_, ?_⟩
  · intro e h
    unfold createExpenseRows runInDbTransaction at h ⊢
    cases hb : createExpenseTxnBody newId itemWrites fileWrites db with
    | error e2 => simp [hb]
    | ok d2 => rw [hb] at h; cases h
  · intro hfail
    have hbody : ∃ e, createExpenseTxnBody newId itemWrites fileWrites db = .error e := by
      unfold createExpenseTxnBody
      rcases hfail with hitems | hfiles
      · exact ⟨.internalError "item creation failed",
          by simp [bind, Except.bind, itemsFoldlM_error newId itemWrites _ hitems]⟩
      · cases hIt : itemWrites.foldlM (itemWriteStep newId) { db with expenses := db.expenses ++ [newId] } with
        | error e => exact ⟨e, by simp [bind, Except.bind, hIt]⟩
        | ok dI => exact ⟨.internalError "attached file creation failed",
            by simp [bind, Except.bind, hIt, filesFoldlM_error newId fileWrites _ hfiles]⟩
    obtain ⟨e, he⟩ := hbody
    refine ⟨e, ?_, ?_⟩ <;> unfold createExpenseRows runInDbTransaction <;> rw [he]
  · intro db2 h
    unfold createExpenseRows runInDbTransaction at h ⊢
    cases hb : createExpenseTxnBody newId itemWrites fileWrites db with
    | error e2 => rw [hb] at h; cases h
    | ok d2 =>
      rw [hb] at h
      cases h
      refine ⟨rfl, ?_⟩
      unfold createExpenseTxnBody at hb
      cases hIt : itemWrites.foldlM (itemWriteStep newId) { db with expenses := db.expenses ++ [newId] } with
      | error e => simp [bind, Except.bind, hIt] at hb
      | ok dI =>
        cases hF : fileWrites.foldlM (fileWriteStep newId) dI with
        | error e => simp [bind, Except.bind, hIt, hF] at hb
        | ok dF =>
          simp only [bind, Except.bind, hIt, hF, pure, Except.pure] at hb
          cases hb
          have h1 := filesFoldlM_ok_expenses newId fileWrites dI _ hF
          have h2 := itemsFoldlM_ok_expenses newId itemWrites _ dI hIt
          rw [h1, h2]

/-- C7 witness: a failing second item write leaves the one-expense database
unchanged. -/
theorem C7_witness :
    ∃ e, (createExpenseRows { expenses := [1], items := [], files := [] } 2
            [{ amount := 100, fails := false }, { amount := 200, fails := true }]
            [{ url := "a", fails := false }]).1 = .error e ∧
         (createExpenseRows { expenses := [1], items := [], files := [] } 2
            [{ amount := 100, fails := false }, { amount := 200, fails := true }]
            [{ url := "a", fails := false }]).2
           = { expenses := [1], items := [], files := [] } :=
  (C7_spec _ _ _ _).2.1 (Or.inl (by decide))

/-- C1 counterexample: on the USD-host test payload (FX rate 1.1, fees in host
currency) the generated CONTRIBUTION CREDIT nets 9200 — the amount minus the
fees converted to collective currency — while the claim formula amount minus
platform fee minus processor fee minus tax gives 9120, as the repository test
itself pins net 9200 for this payload. -/
theorem C1_counterexample :
    ((createFromContributionPayload usdHostTestPayload).filter
        (fun t => t.kind == TxnKind.CONTRIBUTION && t.txnType == TxnType.CREDIT))
      = [contributionCredit usdHostTestPayload] ∧
    (contributionCredit usdHostTestPayload).netAmountInCollectiveCurrency = 9200 ∧
    usdHostTestPayload.amount - usdHostTestPayload.platformFeeInHostCurrency
      - usdHostTestPayload.paymentProcessorFeeInHostCurrency
      - usdHostTestPayload.taxAmount.getD 0 = 9120 ∧
    (9200 : ℤ) ≠ 9120 := by
  refine ⟨?_, ?_, by norm_num [usdHostTestPayload], by norm_num⟩
  · simp [createFromContributionPayload, usdHostTestPayload, contributionEntries,
      hostFeePair, contributionCredit, contributionDebit]
  · have hr : round ((880 : ℚ) / (11 / 10)) = 800 := by
      norm_num [round_eq]
    simp [contributionCredit, hostToCollective, usdHostTestPayload]
    norm_num [hr]

/-- C1 amended: for every contribution payload without fees on top, exactly
one CONTRIBUTION DEBIT / CONTRIBUTION CREDIT pair is generated (four
transactions in total including the host-fee pair), the CREDIT amount is the
payload amount, the CREDIT net amount is the payload amount minus the platform
and payment-processor fees converted from host to collective currency at the
payload FX rate (rounded) minus the tax amount, and the DEBIT net amount is
the negated payload amount. -/
theorem C1_amended (p : ContributionPayload) (h : p.isFeesOnTop = false) :
    (createFromContributionPayload p).length = 4 ∧
    ((createFromContributionPayload p).filter (fun t => t.kind == TxnKind.CONTRIBUTION))
      = [contributionDebit p, contributionCredit p] ∧
    (contributionCredit p).txnType = .CREDIT ∧
    (contributionDebit p).txnType = .DEBIT ∧
    (contributionCredit p).amount = p.amount ∧
    (contributionCredit p).netAmountInCollectiveCurrency
      = p.amount - hostToCollective p (p.platformFeeInHostCurrency + p.paymentProcessorFeeInHostCurrency)
        - p.taxAmount.getD 0 ∧
    (contributionDebit p).netAmountInCollectiveCurrency = -p.amount := by
  have hcond : ¬(p.isFeesOnTop = true ∧ p.platformFeeInHostCurrency ≠ 0) := by
    simp [h]
  refine ⟨?_, ?_, rfl, rfl, rfl, rfl, rfl⟩
  · simp [createFromContributionPayload, hcond, contributionEntries, hostFeePair]
  · simp [createFromContributionPayload, hcond, contributionEntries, hostFeePair,
      contributionCredit, contributionDebit]

/-- C1 witness: the amended statement applied to the USD-host test payload. -/
theorem C1_witness :
    (createFromContributionPayload usdHostTestPayload).length = 4 :=
  (C1_amended usdHostTestPayload rfl).1

/-- C2: for every fees-on-top payload, a non-zero platform fee is treated as a
tip — the generated CONTRIBUTION CREDIT carries platform fee 0 and, in a single
currency (FX rate 1) and without tax, nets the amount minus the tip minus the
payment processor fee; PLATFORM_TIP and PLATFORM_TIP_DEBT pairs are added in
the same TransactionGroup, for eight transactions in total — and a zero
platform fee adds no tip transactions, leaving the four main ones. -/
theorem C2_spec (p : ContributionPayload) (hTop : p.isFeesOnTop = true) :
    (p.platformFeeInHostCurrency ≠ 0 →
      (createFromContributionPayload p).length = 8 ∧
      ((createFromContributionPayload p).filter (fun t => t.kind == TxnKind.PLATFORM_TIP)).length = 2 ∧
      ((createFromContributionPayload p).filter (fun t => t.kind == TxnKind.PLATFORM_TIP_DEBT)).length = 2 ∧
      (∀ t ∈ createFromContributionPayload p, t.sameTransactionGroup = true) ∧
      (∃ c, ((createFromContributionPayload p).filter
          (fun t => t.kind == TxnKind.CONTRIBUTION && t.txnType == TxnType.CREDIT)) = [c] ∧
        c.platformFeeInHostCurrency = 0 ∧
        (p.hostCurrencyFxRate = 1 → p.taxAmount = none →
          c.netAmountInCollectiveCurrency
            = p.amount - p.platformFeeInHostCurrency - p.paymentProcessorFeeInHostCurrency))) ∧
    (p.platformFeeInHostCurrency = 0 →
      (createFromContributionPayload p).length = 4 ∧
      ((createFromContributionPayload p).filter
          (fun t => t.kind == TxnKind.PLATFORM_TIP || t.kind == TxnKind.PLATFORM_TIP_DEBT)).length = 0) := by
  constructor
  · intro hpf
    have hcond : p.isFeesOnTop = true ∧ p.platformFeeInHostCurrency ≠ 0 := ⟨hTop, hpf⟩
    refine ⟨?_, ?_, ?_, ?_, ?_⟩
    · simp [createFromContributionPayload, hcond, contributionEntries, hostFeePair,
        platformTipPair, platformTipDebtPair]
    · simp [createFromContributionPayload, hcond, contributionEntries, hostFeePair,
        platformTipPair, platformTipDebtPair, contributionCredit, contributionDebit]
    · simp [createFromContributionPayload, hcond, contributionEntries, hostFeePair,
        platformTipPair, platformTipDebtPair, contributionCredit, contributionDebit]
    · intro t ht
      simp [createFromContributionPayload, hcond, contributionEntries, hostFeePair,
        platformTipPair, platformTipDebtPair, contributionCredit, contributionDebit] at ht
      rcases ht with h1 | h1 | h1 | h1 | h1 | h1 | h1 | h1 <;> subst h1 <;> rfl
    · refine ⟨contributionCredit
          { p with amount := p.amount - hostToCollective p p.platformFeeInHostCurrency,
                   amountInHostCurrency := p.amountInHostCurrency - p.platformFeeInHostCurrency,
                   platformFeeInHostCurrency := 0 }, ?_, ?_, ?_⟩
      · simp [createFromContributionPayload, hcond, contributionEntries, hostFeePair,
          platformTipPair, platformTipDebtPair, contributionCredit, contributionDebit]
      · simp [contributionCredit]
      · intro hFx hTax
        simp only [contributionCredit, hostToCollective, hFx, hTax]
        simp [round_intCast]
  · intro hpf
    have hcond : ¬(p.isFeesOnTop = true ∧ p.platformFeeInHostCurrency ≠ 0) := by
      simp [hpf]
    constructor
    · simp [createFromContributionPayload, hcond, contributionEntries, hostFeePair]
    · simp [createFromContributionPayload, hcond, contributionEntries, hostFeePair,
        contributionCredit, contributionDebit]

/-- C2 witness: the theorem applied to the fees-on-top test payload, whose
platform fee of 1000 is non-zero, yields the eight transactions. -/
theorem C2_witness :
    (createFromContributionPayload feesOnTopTestPayload).length = 8 :=
  ((C2_spec feesOnTopTestPayload rfl).1 (by norm_num [feesOnTopTestPayload])).1

end OC
